import Mathlib

/-!
Shallow embedding of the fhirstarter route-metadata, content-negotiation and
response-composition subsystem (src/fhirstarter/utils.py and
src/fhirstarter/interactions.py), together with proofs of the specification
claims about it.

Python dictionaries are modelled as association lists built in insertion
order, where a later binding for a key shadows an earlier one; `dictGet`
therefore looks keys up from the right.  Machine integers do not occur
(status codes are small naturals), and the external serialization library
(fhir.resources) is kept symbolic: a serializer call is recorded as a
constructor applied to the resource, never interpreted.
-/

namespace Fhirstarter

/- HTTP status constants, as used via `from . import status`. -/
namespace status

def HTTP_200_OK : Nat := 200

def HTTP_201_CREATED : Nat := 201

def HTTP_400_BAD_REQUEST : Nat := 400

def HTTP_401_UNAUTHORIZED : Nat := 401

def HTTP_404_NOT_FOUND : Nat := 404

def HTTP_422_UNPROCESSABLE_ENTITY : Nat := 422

end status

/-- The four interaction kinds.  In the Python source each kind is a subclass
of `TypeInteraction` (`CreateInteraction`, `ReadInteraction`,
`SearchTypeInteraction`, `UpdateInteraction`); the kind tag models which
subclass an interaction instance belongs to. -/
inductive InteractionKind
  | create
  | read
  | searchType
  | update
deriving DecidableEq, Repr

/-- The per-subclass static `label()` method of `TypeInteraction`. -/
def InteractionKind.label : InteractionKind → String
  | .create => "create"
  | .read => "read"
  | .searchType => "search-type"
  | .update => "update"

/-- Shape tag of a documented response body: the interaction's own resource
type (`interaction.resource_type`), the `Bundle` class, or the
`OperationOutcome` class. -/
inductive ShapeTag
  | resource (name : String)
  | bundle
  | operationOutcome
deriving DecidableEq, Repr

/-- One entry of a responses-documentation dictionary: the `model` and
`description` keys of the per-status dict in utils.py. -/
structure ResponseDoc where
  model : ShapeTag
  description : String
deriving DecidableEq, Repr

/-- Values stored in a route-arguments dictionary (`dict[str, Any]`). -/
inductive Val
  | str (s : String)
  | nat (n : Nat)
  | bool (b : Bool)
  | strList (l : List String)
  | responses (r : List (Nat × ResponseDoc))
  | model (t : ShapeTag)
deriving DecidableEq, Repr

/-- A `TypeInteraction` instance (interactions.py).  `resource_type` stands
for `interaction.resource_type.get_resource_type()`, the resource type's
name; `callable_` is an opaque tag standing for the user-supplied callback;
`dependencies` models the descriptor-level pluggable pre-checks that the
provider (outside these sources) stores alongside the interaction.  Route
metadata derivation never reads `callable_` or `dependencies`. -/
structure TypeInteraction where
  resource_type : String
  kind : InteractionKind
  callable_ : Nat
  route_options : List (String × Val)
  dependencies : List Nat
deriving DecidableEq, Repr

/-- Python dict lookup on an insertion-ordered association list: the latest
binding of a key wins, which is why the list is searched from the right. -/
def dictGet (d : List (String × Val)) (k : String) : Option Val :=
  d.reverse.lookup k

/-- The in-place dict update `merged |= response(interaction)`: each binding
of the right dict replaces an existing binding of the same key or is appended. -/
def dictUpdate (d e : List (Nat × ResponseDoc)) : List (Nat × ResponseDoc) :=
  e.foldl
    (fun acc kv =>
      if acc.any (fun p => p.1 == kv.1) then
        acc.map (fun p => if p.1 == kv.1 then (p.1, kv.2) else p)
      else acc ++ [kv])
    d

/-- `_responses(interaction, *responses)` from utils.py: merge the
responses documentation of an interaction into a single dictionary. -/
def _responses (interaction : TypeInteraction)
    (responses : List (TypeInteraction → List (Nat × ResponseDoc))) :
    List (Nat × ResponseDoc) :=
  responses.foldl (fun acc response => dictUpdate acc (response interaction)) []

/-- `_ok` from utils.py: documentation for an HTTP 200 OK response. -/
def _ok (interaction : TypeInteraction) : List (Nat × ResponseDoc) :=
  [(status.HTTP_200_OK,
    { model :=
        if interaction.kind = .searchType then ShapeTag.bundle
        else ShapeTag.resource interaction.resource_type,
      description :=
        "Successful " ++ interaction.resource_type ++ " "
          ++ interaction.kind.label })]

/-- `_created` from utils.py: documentation for an HTTP 201 Created response. -/
def _created (interaction : TypeInteraction) : List (Nat × ResponseDoc) :=
  [(status.HTTP_201_CREATED,
    { model := ShapeTag.resource interaction.resource_type,
      description :=
        "Successful " ++ interaction.resource_type ++ " create" })]

/-- `_bad_request` from utils.py: documentation for an HTTP 400 response. -/
def _bad_request (interaction : TypeInteraction) : List (Nat × ResponseDoc) :=
  [(status.HTTP_400_BAD_REQUEST,
    { model := ShapeTag.operationOutcome,
      description :=
        interaction.resource_type ++ " " ++ interaction.kind.label
          ++ " request could not be parsed or failed basic FHIR validation rules." })]

/-- `_unauthorized` from utils.py: documentation for an HTTP 401 response. -/
def _unauthorized (interaction : TypeInteraction) : List (Nat × ResponseDoc) :=
  [(status.HTTP_401_UNAUTHORIZED,
    { model := ShapeTag.operationOutcome,
      description :=
        interaction.resource_type
          ++ " Authorization is required for the " ++ interaction.kind.label
          ++ " interaction that was attempted." })]

/-- `_not_found` from utils.py: documentation for an HTTP 404 response. -/
def _not_found (interaction : TypeInteraction) : List (Nat × ResponseDoc) :=
  [(status.HTTP_404_NOT_FOUND,
    { model := ShapeTag.operationOutcome,
      description :=
        "Unknown " ++ interaction.resource_type ++ " resource" })]

/-- `_unprocessable_entity` from utils.py: documentation for an HTTP 422
response. -/
def _unprocessable_entity (interaction : TypeInteraction) :
    List (Nat × ResponseDoc) :=
  [(status.HTTP_422_UNPROCESSABLE_ENTITY,
    { model := ShapeTag.operationOutcome,
      description :=
        "The proposed " ++ interaction.resource_type
          ++ " resource violated applicable FHIR profiles or server business rules." })]

/-- `create_route_args` from utils.py.  The dict literal is built in source
order; `**interaction.route_options` is spread last, so its bindings shadow
the generated ones under `dictGet`. -/
def create_route_args (interaction : TypeInteraction) : List (String × Val) :=
  let resource_type_str := interaction.resource_type
  [("path", Val.str ("/" ++ resource_type_str)),
   ("response_model", Val.model (ShapeTag.resource interaction.resource_type)),
   ("status_code", Val.nat status.HTTP_201_CREATED),
   ("tags", Val.strList ["Type:" ++ interaction.resource_type]),
   ("summary", Val.str (resource_type_str ++ " " ++ interaction.kind.label)),
   ("description", Val.str
     ("The " ++ resource_type_str ++ " create interaction creates a new "
       ++ resource_type_str ++ " resource in a server-assigned location.")),
   ("responses", Val.responses (_responses interaction
     [_created, _bad_request, _unauthorized, _unprocessable_entity])),
   ("response_model_exclude_none", Val.bool true)]
  ++ interaction.route_options

/-- `read_route_args` from utils.py. -/
def read_route_args (interaction : TypeInteraction) : List (String × Val) :=
  let resource_type_str := interaction.resource_type
  [("path", Val.str ("/" ++ resource_type_str ++ "/{id}")),
   ("response_model", Val.model (ShapeTag.resource interaction.resource_type)),
   ("status_code", Val.nat status.HTTP_200_OK),
   ("tags", Val.strList ["Type:" ++ interaction.resource_type]),
   ("summary", Val.str (resource_type_str ++ " " ++ interaction.kind.label)),
   ("description", Val.str
     ("The " ++ resource_type_str ++ " read interaction accesses "
       ++ "the current contents of a " ++ resource_type_str ++ " resource.")),
   ("responses", Val.responses (_responses interaction
     [_ok, _unauthorized, _not_found])),
   ("response_model_exclude_none", Val.bool true)]
  ++ interaction.route_options

/-- `search_type_route_args` from utils.py. -/
def search_type_route_args (interaction : TypeInteraction) (post : Bool) :
    List (String × Val) :=
  let resource_type_str := interaction.resource_type
  [("path", Val.str ("/" ++ resource_type_str
     ++ (if post then "/_search" else ""))),
   ("response_model", Val.model ShapeTag.bundle),
   ("status_code", Val.nat status.HTTP_200_OK),
   ("tags", Val.strList ["Type:" ++ interaction.resource_type]),
   ("summary", Val.str (resource_type_str ++ " " ++ interaction.kind.label)),
   ("description", Val.str
     ("The " ++ resource_type_str ++ " search-type interaction searches a set of "
       ++ "resources based on some filter criteria.")),
   ("responses", Val.responses (_responses interaction
     [_ok, _bad_request, _unauthorized])),
   ("response_model_exclude_none", Val.bool true)]
  ++ interaction.route_options

/-- `update_route_args` from utils.py.  Note that the source combines
`_ok`, `_bad_request`, `_unauthorized`, `_unprocessable_entity` only:
`_not_found` is not among the documented responses. -/
def update_route_args (interaction : TypeInteraction) : List (String × Val) :=
  let resource_type_str := interaction.resource_type
  [("path", Val.str ("/" ++ resource_type_str ++ "/{id}")),
   ("response_model", Val.model (ShapeTag.resource interaction.resource_type)),
   ("status_code", Val.nat status.HTTP_200_OK),
   ("tags", Val.strList ["Type:" ++ interaction.resource_type]),
   ("summary", Val.str (resource_type_str ++ " " ++ interaction.kind.label)),
   ("description", Val.str
     ("The " ++ resource_type_str ++ " update interaction creates a new current version "
       ++ "for an existing " ++ resource_type_str ++ " resource.")),
   ("responses", Val.responses (_responses interaction
     [_ok, _bad_request, _unauthorized, _unprocessable_entity])),
   ("response_model_exclude_none", Val.bool true)]
  ++ interaction.route_options

/-- Dispatch to the route-args builder matching an interaction's kind, as the
registration layer does; the `post` flag selects the search-type path variant. -/
def route_args (interaction : TypeInteraction) (post : Bool) :
    List (String × Val) :=
  match interaction.kind with
  | .create => create_route_args interaction
  | .read => read_route_args interaction
  | .searchType => search_type_route_args interaction post
  | .update => update_route_args interaction

/-- Extract the responses dictionary from generated route arguments. -/
def responsesOf (args : List (String × Val)) : Option (List (Nat × ResponseDoc)) :=
  match dictGet args "responses" with
  | some (Val.responses r) => some r
  | _ => none

/-- The status codes documented in generated route arguments, in merge order. -/
def responseKeys (args : List (String × Val)) : Option (List Nat) :=
  (responsesOf args).map (fun r => r.map Prod.fst)

/-- The parts of a FastAPI `Request` that `FormatParameters` reads:
`request.method`, `request.headers.getlist("Accept")` (the Accept header
values in arrival order), and the parsed query multidict.  Starlette's
`QueryParams.get` returns the last value given for a key. -/
structure Request where
  method : String
  accept_headers : List String
  query_params : List (String × String)
deriving DecidableEq, Repr

/-- Starlette `request.query_params.get(key, default)`: the last binding of
the key wins (the underlying multidict keeps the final value per key). -/
def queryGet (req : Request) (key default : String) : String :=
  (req.query_params.reverse.lookup key).getD default

/-- `FHIRGeneralError` as raised by `FormatParameters.from_request`: the
keyword arguments passed at the raise site in utils.py. -/
structure FHIRGeneralError where
  status_code : Nat
  severity : String
  code : String
  details_text : String
deriving DecidableEq, Repr

/-- `FormatParameters` dataclass from utils.py. -/
structure FormatParameters where
  format : String := "application/fhir+json"
  pretty : Bool := false
deriving DecidableEq, Repr

namespace FormatParameters

/-- The `_CONTENT_TYPES` class variable: the case-sensitive alias table,
as a dict literal in source order. -/
def _CONTENT_TYPES : List (String × String) :=
  [("json", "application/fhir+json"),
   ("application/json", "application/fhir+json"),
   ("application/fhir+json", "application/fhir+json"),
   ("xml", "application/fhir+xml"),
   ("text/xml", "application/fhir+xml"),
   ("application/xml", "application/fhir+xml"),
   ("application/fhir+xml", "application/fhir+xml")]

/-- `FormatParameters.format_from_accept_header`: for a POST request, scan
the listed Accept values in order and return the first normalized hit in
the alias table; otherwise `None`.  (All table values are non-empty, so the
walrus truthiness test in the source coincides with a hit.) -/
def format_from_accept_header (request : Request) : Option String :=
  if request.method = "POST" then
    request.accept_headers.findSome? (fun content_type =>
      _CONTENT_TYPES.lookup content_type)
  else none

/-- `FormatParameters.from_request`: resolve format from the Accept header
first (POST only), then from the `_format` query parameter (default token
`"json"`); a missed alias lookup raises `FHIRGeneralError` in strict mode
and silently defaults in lenient mode; `pretty` is true exactly when the
`_pretty` query value is the string `"true"`. -/
def from_request (request : Request) (raise_exception : Bool := true) :
    Except FHIRGeneralError FormatParameters :=
  match format_from_accept_header request with
  | some format_ =>
    Except.ok
      { format := format_,
        pretty := queryGet request "_pretty" "false" == "true" }
  | none =>
    match _CONTENT_TYPES.lookup (queryGet request "_format" "json") with
    | some format_ =>
      Except.ok
        { format := format_,
          pretty := queryGet request "_pretty" "false" == "true" }
    | none =>
      if raise_exception then
        Except.error
          { status_code := status.HTTP_400_BAD_REQUEST,
            severity := "error",
            code := "structure",
            details_text :=
              "Invalid response format specified for \x27_format\x27 parameter" }
      else
        Except.ok
          { format := "application/fhir+json",
            pretty := queryGet request "_pretty" "false" == "true" }

end FormatParameters

/-- A domain resource handed to `format_response`.  The fhir.resources
serialization library is outside this subsystem, so a resource is just an
opaque identity; its serializer calls are recorded symbolically by
`Content`.  (fhir.resources objects are always truthy, so `if not resource`
in the source is exactly the `None` test, modelled by `Option`.) -/
structure ResourceModel where
  tag : String
deriving DecidableEq, Repr

/-- A symbolic serializer invocation: `resource.json(indent=2,
separators=(", ", ": "))`, `resource.dict()`, or
`resource.xml(pretty_print=pretty)`. -/
inductive Content
  | jsonPretty (r : ResourceModel)
  | dictOf (r : ResourceModel)
  | xmlOf (r : ResourceModel) (pretty : Bool)
deriving DecidableEq, Repr

/-- The mutable FastAPI `Response` sink bound to the in-flight request,
reduced to its header map.  (Starlette normalizes header names; the model
uses the exact key written by the source, `"Content-Type"`.) -/
structure ResponseSink where
  headers : List (String × String)
deriving DecidableEq, Repr

/-- `response.headers[key] = value`: drop any existing bindings of the key
and append the new one. -/
def setHeader (sink : ResponseSink) (key value : String) : ResponseSink :=
  ⟨sink.headers.filter (fun p => p.1 != key) ++ [(key, value)]⟩

/-- `headers.get(key)` on a sink: first binding wins (after `setHeader`
there is at most one binding of the key). -/
def headerGet (sink : ResponseSink) (key : String) : Option String :=
  sink.headers.lookup key

/-- A standalone response object built by `format_response`:
`is_json_response` distinguishes `JSONResponse(...)` from `Response(...)`. -/
structure BuiltResponse where
  content : Content
  status_code : Nat
  media_type : String
  is_json_response : Bool
deriving DecidableEq, Repr

/-- The value returned by `format_response`: either the `resource` argument
handed back unwrapped (possibly `None`) for default transport serialization,
or a freshly built standalone response. -/
inductive FormatResult
  | resource (r : Option ResourceModel)
  | response (b : BuiltResponse)
deriving DecidableEq, Repr

/-- Python truthiness of the optional `status_code` argument: `if
status_code:` is false for `None` and for `0`. -/
def pyTruthy : Option Nat → Bool
  | some n => n ≠ 0
  | none => false

/-- Python `status_code or status.HTTP_200_OK`: the status when present and
truthy, else the default. -/
def pyOr (status_code : Option Nat) (default : Nat) : Nat :=
  match status_code with
  | some n => if n ≠ 0 then n else default
  | none => default

/-- `format_response` from utils.py.  The result pairs the returned value
with the final state of the optional response sink; `none` stands for a
fired `assert`.  Branching follows the source: absent resource stamps the
sink; JSON splits on `pretty` and then on the truthiness of `status_code`;
any other negotiated format takes the XML branch. -/
def format_response (resource : Option ResourceModel)
    (response : Option ResponseSink := none)
    (status_code : Option Nat := none)
    (format_parameters : FormatParameters := {}) :
    Option (FormatResult × Option ResponseSink) :=
  match resource with
  | none =>
    match response with
    | none => none
    | some sink =>
      some (FormatResult.resource none,
        some (setHeader sink "Content-Type" format_parameters.format))
  | some r =>
    if format_parameters.format = "application/fhir+json" then
      if format_parameters.pretty then
        some (FormatResult.response
          { content := Content.jsonPretty r,
            status_code := pyOr status_code status.HTTP_200_OK,
            media_type := format_parameters.format,
            is_json_response := false },
          response)
      else
        if pyTruthy status_code then
          some (FormatResult.response
            { content := Content.dictOf r,
              status_code := status_code.getD 0,
              media_type := format_parameters.format,
              is_json_response := true },
            response)
        else
          match response with
          | none => none
          | some sink =>
            some (FormatResult.resource (some r),
              some (setHeader sink "Content-Type" format_parameters.format))
    else
      some (FormatResult.response
        { content := Content.xmlOf r format_parameters.pretty,
          status_code := pyOr status_code status.HTTP_200_OK,
          media_type := format_parameters.format,
          is_json_response := false },
        response)

/-- The `details` element of an issue: `{"text": details_text}`. -/
structure Details where
  text : String
deriving DecidableEq, Repr

/-- One issue record of an `OperationOutcome`. -/
structure Issue where
  severity : String
  code : String
  details : Details
deriving DecidableEq, Repr

/-- The `OperationOutcome` resource, reduced to the fields this subsystem
constructs. -/
structure OperationOutcome where
  issue : List Issue
deriving DecidableEq, Repr

/-- `make_operation_outcome` from utils.py. -/
def make_operation_outcome (severity code details_text : String) :
    OperationOutcome :=
  { issue :=
      [{ severity := severity,
         code := code,
         details := { text := details_text } }] }

/-! Theorems.  First a helper about dict lookup: a spread `**route_options`
that binds none of a key leaves that key's generated value visible. -/

/-- A key bound nowhere in the spread options is looked up in the base dict. -/
theorem dictGet_append_of_not_mem (base opts : List (String × Val)) (k : String)
    (h : k ∉ opts.map Prod.fst) : dictGet (base ++ opts) k = dictGet base k := by
  unfold dictGet
  rw [List.reverse_append, List.lookup_append]
  have hnone : List.lookup k opts.reverse = none := by
    rw [List.lookup_eq_none_iff]
    intro p hp
    rw [List.mem_reverse] at hp
    have hmem : p.1 ∈ opts.map Prod.fst := List.mem_map_of_mem Prod.fst hp
    rw [bne_iff_ne]
    intro hk
    exact h (hk ▸ hmem)
  rw [hnone, Option.none_or]

/-- Claim C9: `make_operation_outcome` always returns an `OperationOutcome`
with exactly one issue, whose severity, code and details text are the three
inputs. -/
theorem C9_make_operation_outcome_single_issue
    (severity code details_text : String) :
    (make_operation_outcome severity code details_text).issue.length = 1
      ∧ (make_operation_outcome severity code details_text).issue
          = [{ severity := severity, code := code,
               details := { text := details_text } }] :=
  ⟨rfl, rfl⟩

/-- Claim C1 (code bug evidence): for the Update interaction on Patient with
no route options, the generated metadata has path `/Patient/{id}` and success
status 200 as claimed, but its documented responses are exactly
200, 400, 401 and 422 — the 404 response required by the claim (and produced
at runtime, per `test_update_not_found`) is missing because
`update_route_args` does not include `_not_found`. -/
theorem C1_update_route_metadata_on_patient :
    dictGet (update_route_args ⟨"Patient", .update, 0, [], []⟩) "path"
        = some (Val.str "/Patient/{id}")
      ∧ dictGet (update_route_args ⟨"Patient", .update, 0, [], []⟩) "status_code"
        = some (Val.nat 200)
      ∧ responseKeys (update_route_args ⟨"Patient", .update, 0, [], []⟩)
        = some [200, 400, 401, 422]
      ∧ (404 : Nat) ∉ [200, 400, 401, 422] := by
  refine ⟨rfl, rfl, rfl, by decide⟩

/-- Claim C2 (amended): for every interaction whose route options do not bind
the keys `path`, `status_code` or `responses`, the generated route metadata
matches the table: Create uses `/{type}` with 201 and documented statuses
201, 400, 401, 422; Read uses `/{type}/{id}` with 200 and statuses
200, 401, 404; SearchType uses `/{type}` (GET variant) and `/{type}/_search`
(POST variant) with 200 and statuses 200, 400, 401. -/
theorem C2_route_metadata_table (i : TypeInteraction)
    (hp : "path" ∉ i.route_options.map Prod.fst)
    (hs : "status_code" ∉ i.route_options.map Prod.fst)
    (hr : "responses" ∉ i.route_options.map Prod.fst) :
    (i.kind = .create →
      dictGet (create_route_args i) "path"
          = some (Val.str ("/" ++ i.resource_type))
        ∧ dictGet (create_route_args i) "status_code" = some (Val.nat 201)
        ∧ responseKeys (create_route_args i) = some [201, 400, 401, 422])
      ∧ (i.kind = .read →
        dictGet (read_route_args i) "path"
            = some (Val.str ("/" ++ i.resource_type ++ "/{id}"))
          ∧ dictGet (read_route_args i) "status_code" = some (Val.nat 200)
          ∧ responseKeys (read_route_args i) = some [200, 401, 404])
      ∧ (i.kind = .searchType →
        dictGet (search_type_route_args i false) "path"
            = some (Val.str ("/" ++ i.resource_type))
          ∧ dictGet (search_type_route_args i true) "path"
            = some (Val.str ("/" ++ i.resource_type ++ "/_search"))
          ∧ dictGet (search_type_route_args i false) "status_code"
            = some (Val.nat 200)
          ∧ dictGet (search_type_route_args i true) "status_code"
            = some (Val.nat 200)
          ∧ responseKeys (search_type_route_args i false) = some [200, 400, 401]
          ∧ responseKeys (search_type_route_args i true) = some [200, 400, 401]) := by
  obtain ⟨rt, kind, c, opts, deps⟩ := i
  refine ⟨fun _ => ⟨?_, ?_, ?_⟩, fun _ => ⟨?_, ?_, ?_⟩,
    fun _ => ⟨?_, ?_, ?_, ?_, ?_, ?_⟩⟩ <;>
    simp only [create_route_args, read_route_args, search_type_route_args,
      responseKeys, responsesOf] <;>
    rw [dictGet_append_of_not_mem _ _ _ (by assumption)]
  any_goals rfl
  simp [dictGet, List.lookup, String.append_empty]

/-- Claim C2 witness. -/
theorem C2_route_metadata_table_witness :
    dictGet (create_route_args ⟨"Patient", .create, 0, [], []⟩) "status_code"
        = some (Val.nat 201)
      ∧ responseKeys (read_route_args ⟨"Patient", .read, 0, [], []⟩)
        = some [200, 401, 404] :=
  ⟨((C2_route_metadata_table ⟨"Patient", .create, 0, [], []⟩
      (by decide) (by decide) (by decide)).1 rfl).2.1,
   ((C2_route_metadata_table ⟨"Patient", .read, 0, [], []⟩
      (by decide) (by decide) (by decide)).2.1 rfl).2.2⟩

/-- Claim C2 counterexample: a registered create interaction whose route
options bind `status_code` overrides the generated success status, because
`**interaction.route_options` is spread last into the metadata dict; the
generated metadata then carries 202, not the 201 the claim requires of every
registered pair. -/
theorem C2_route_metadata_counterexample :
    dictGet (create_route_args
        ⟨"Patient", .create, 0, [("status_code", Val.nat 202)], []⟩)
        "status_code" = some (Val.nat 202)
      ∧ dictGet (create_route_args
        ⟨"Patient", .create, 0, [("status_code", Val.nat 202)], []⟩)
        "status_code" ≠ some (Val.nat status.HTTP_201_CREATED) := by
  refine ⟨rfl, by decide⟩

/-- Claim C7 (amended): two interactions with the same resource type and the
same kind — whatever their callbacks and dependencies — derive the same
success status and the same responses documentation, provided neither's route
options bind `status_code` or `responses`. -/
theorem C7_status_and_responses_depend_only_on_type_and_kind
    (i j : TypeInteraction) (b1 b2 : Bool)
    (hrt : i.resource_type = j.resource_type)
    (hk : i.kind = j.kind)
    (his : "status_code" ∉ i.route_options.map Prod.fst)
    (hir : "responses" ∉ i.route_options.map Prod.fst)
    (hjs : "status_code" ∉ j.route_options.map Prod.fst)
    (hjr : "responses" ∉ j.route_options.map Prod.fst) :
    dictGet (route_args i b1) "status_code"
        = dictGet (route_args j b2) "status_code"
      ∧ dictGet (route_args i b1) "responses"
        = dictGet (route_args j b2) "responses" := by
  obtain ⟨rti, ki, ci, oi, di⟩ := i
  obtain ⟨rtj, kj, cj, oj, dj⟩ := j
  simp only at hrt hk his hir hjs hjr
  subst hrt
  subst hk
  cases ki <;>
    refine ⟨?_, ?_⟩ <;>
      simp only [route_args, create_route_args, read_route_args,
        search_type_route_args, update_route_args] <;>
      rw [dictGet_append_of_not_mem _ _ _ (by assumption),
        dictGet_append_of_not_mem _ _ _ (by assumption)]
  all_goals rfl

/-- Claim C7 witness. -/
theorem C7_status_and_responses_witness :
    dictGet (route_args ⟨"Patient", .update, 0, [], [1]⟩ false) "status_code"
        = dictGet (route_args ⟨"Patient", .update, 7, [("tags", Val.strList [])], []⟩ true)
          "status_code" :=
  (C7_status_and_responses_depend_only_on_type_and_kind
    ⟨"Patient", .update, 0, [], [1]⟩
    ⟨"Patient", .update, 7, [("tags", Val.strList [])], []⟩
    false true rfl rfl (by decide) (by decide) (by decide) (by decide)).1

/-- Claim C7 counterexample: two update interactions on the same resource
type whose route options differ produce different success statuses, because
the spread route options override the generated `status_code`; the derived
metadata is therefore not a function of (resourceType, kind) alone. -/
theorem C7_route_options_break_purity :
    dictGet (route_args ⟨"Patient", .update, 0, [], []⟩ false) "status_code"
      ≠ dictGet (route_args
          ⟨"Patient", .update, 0, [("status_code", Val.nat 202)], []⟩ false)
          "status_code" := by
  decide

/-- A successful association-list lookup returns one of the stored values. -/
theorem lookup_mem_values {α β : Type} [BEq α] (l : List (α × β)) (k : α) (v : β)
    (h : List.lookup k l = some v) : v ∈ l.map Prod.snd := by
  induction l with
  | nil => exact absurd h (by simp)
  | cons p t ih =>
    rw [List.lookup_cons] at h
    simp only [List.map_cons, List.mem_cons]
    split at h
    · exact Or.inl (Option.some.inj h).symm
    · exact Or.inr (ih h)

/-- Every value of the alias table is one of the two canonical tokens. -/
theorem content_types_range (k v : String)
    (h : FormatParameters._CONTENT_TYPES.lookup k = some v) :
    v = "application/fhir+json" ∨ v = "application/fhir+xml" := by
  have hv := lookup_mem_values _ k v h
  simp only [FormatParameters._CONTENT_TYPES, List.map_cons, List.map_nil,
    List.mem_cons, List.not_mem_nil, or_false] at hv
  tauto

/-- A format resolved from the Accept header is one of the two canonical
tokens. -/
theorem accept_format_canonical (request : Request) (f : String)
    (h : FormatParameters.format_from_accept_header request = some f) :
    f = "application/fhir+json" ∨ f = "application/fhir+xml" := by
  unfold FormatParameters.format_from_accept_header at h
  split at h
  · obtain ⟨a, -, ha⟩ := List.exists_of_findSome?_eq_some h
    exact content_types_range a f ha
  · exact absurd h (by simp)

/-- Claim C3: format resolution follows the algorithm — for POST the Accept
values are scanned in order and the first alias-table hit resolves the
format regardless of `_format`; otherwise (non-POST, or no Accept hit) the
`_format` query value (default token `"json"`) is looked up; and the pretty
flag is true exactly when the raw `_pretty` value is the string `"true"`. -/
theorem C3_format_resolution_algorithm (request : Request)
    (raise_exception : Bool) :
    (request.method = "POST" →
      ∀ f, request.accept_headers.findSome?
          (fun content_type => FormatParameters._CONTENT_TYPES.lookup content_type)
          = some f →
        FormatParameters.from_request request raise_exception
          = Except.ok
              { format := f,
                pretty := queryGet request "_pretty" "false" == "true" })
      ∧ ((request.method ≠ "POST"
          ∨ request.accept_headers.findSome?
              (fun content_type => FormatParameters._CONTENT_TYPES.lookup content_type)
              = none) →
        ∀ f, FormatParameters._CONTENT_TYPES.lookup (queryGet request "_format" "json")
            = some f →
          FormatParameters.from_request request raise_exception
            = Except.ok
                { format := f,
                  pretty := queryGet request "_pretty" "false" == "true" })
      ∧ (∀ fp, FormatParameters.from_request request raise_exception = Except.ok fp →
          (fp.pretty = true ↔ queryGet request "_pretty" "false" = "true")) := by
  refine ⟨?_, ?_, ?_⟩
  · intro hm f hf
    simp [FormatParameters.from_request, FormatParameters.format_from_accept_header,
      hm, hf]
  · intro hor f hf
    have hacc : FormatParameters.format_from_accept_header request = none := by
      rcases hor with hm | hn
      · simp [FormatParameters.format_from_accept_header, hm]
      · simp [FormatParameters.format_from_accept_header, hn]
    simp [FormatParameters.from_request, hacc, hf]
  · intro fp h
    unfold FormatParameters.from_request at h
    split at h
    · cases h
      simp
    · split at h
      · cases h
        simp
      · split at h
        · exact Except.noConfusion h
        · cases h
          simp

/-- Claim C3 witness. -/
theorem C3_format_resolution_witness :
    FormatParameters.from_request
        ⟨"POST", ["text/html", "application/fhir+xml"],
          [("_format", "json"), ("_pretty", "true")]⟩ true
      = Except.ok { format := "application/fhir+xml", pretty := true }
    ∧ FormatParameters.from_request ⟨"GET", ["application/fhir+xml"], [("_format", "xml")]⟩ true
      = Except.ok { format := "application/fhir+xml", pretty := false } :=
  ⟨(C3_format_resolution_algorithm
      ⟨"POST", ["text/html", "application/fhir+xml"],
        [("_format", "json"), ("_pretty", "true")]⟩ true).1 rfl
      "application/fhir+xml" rfl,
   (C3_format_resolution_algorithm
      ⟨"GET", ["application/fhir+xml"], [("_format", "xml")]⟩ true).2.1
      (Or.inl (by decide)) "application/fhir+xml" rfl⟩

/-- Claim C4: when no Accept value resolved the format and the `_format`
token has no alias-table entry, strict mode fails with a 400 error of issue
code `"structure"`, while lenient mode returns CanonicalJSON and does not
raise. -/
theorem C4_unknown_format_token (request : Request)
    (h1 : FormatParameters.format_from_accept_header request = none)
    (h2 : FormatParameters._CONTENT_TYPES.lookup (queryGet request "_format" "json")
      = none) :
    FormatParameters.from_request request true
        = Except.error
            { status_code := 400, severity := "error", code := "structure",
              details_text :=
                "Invalid response format specified for \x27_format\x27 parameter" }
      ∧ FormatParameters.from_request request false
        = Except.ok
            { format := "application/fhir+json",
              pretty := queryGet request "_pretty" "false" == "true" } := by
  constructor <;>
    simp [FormatParameters.from_request, h1, h2, status.HTTP_400_BAD_REQUEST]

/-- Claim C4 witness. -/
theorem C4_unknown_format_token_witness :
    FormatParameters.from_request ⟨"GET", [], [("_format", "bogus")]⟩ true
        = Except.error
            { status_code := 400, severity := "error", code := "structure",
              details_text :=
                "Invalid response format specified for \x27_format\x27 parameter" }
      ∧ FormatParameters.from_request ⟨"GET", [], [("_format", "bogus")]⟩ false
        = Except.ok { format := "application/fhir+json", pretty := false } :=
  C4_unknown_format_token ⟨"GET", [], [("_format", "bogus")]⟩ rfl rfl

/-- Claim C6: every `FormatParameters` produced by `from_request`, in either
mode and through either resolution path, carries one of exactly the two
canonical format tokens. -/
theorem C6_resolved_format_canonical (request : Request) (raise_exception : Bool)
    (fp : FormatParameters)
    (h : FormatParameters.from_request request raise_exception = Except.ok fp) :
    fp.format = "application/fhir+json" ∨ fp.format = "application/fhir+xml" := by
  unfold FormatParameters.from_request at h
  split at h
  case _ f hacc =>
    cases h
    exact accept_format_canonical request f hacc
  case _ hacc =>
    split at h
    case _ f hfmt =>
      cases h
      exact content_types_range _ f hfmt
    case _ =>
      split at h
      · exact Except.noConfusion h
      · cases h
        exact Or.inl rfl

/-- Claim C6 witness. -/
theorem C6_resolved_format_canonical_witness :
    FormatParameters.from_request ⟨"GET", [], [("_format", "xml")]⟩ true
        = Except.ok { format := "application/fhir+xml", pretty := false }
      ∧ ("application/fhir+xml" = "application/fhir+json"
        ∨ "application/fhir+xml" = "application/fhir+xml") :=
  ⟨rfl,
   C6_resolved_format_canonical ⟨"GET", [], [("_format", "xml")]⟩ true
     { format := "application/fhir+xml", pretty := false } rfl⟩

/-- Claim C5 (amended): with a resource present, pretty JSON, minified JSON
with an explicit nonzero status, and XML each build a standalone response at
(explicit nonzero status, else 200) whose media type is the negotiated
format, the XML content rendered with the pretty flag; minified JSON whose
status is absent or zero instead stamps the sink's Content-Type and returns
the raw resource unwrapped. -/
theorem C5_present_resource_case_table (r : ResourceModel)
    (response : Option ResponseSink) (status_code : Option Nat)
    (fp : FormatParameters) :
    (fp.format = "application/fhir+json" → fp.pretty = true →
      format_response (some r) response status_code fp
        = some (FormatResult.response
            { content := Content.jsonPretty r,
              status_code := pyOr status_code 200,
              media_type := fp.format,
              is_json_response := false }, response))
      ∧ (fp.format = "application/fhir+json" → fp.pretty = false →
        ∀ n, status_code = some n → n ≠ 0 →
        format_response (some r) response status_code fp
          = some (FormatResult.response
              { content := Content.dictOf r,
                status_code := n,
                media_type := fp.format,
                is_json_response := true }, response))
      ∧ (fp.format = "application/fhir+json" → fp.pretty = false →
        pyTruthy status_code = false →
        ∀ sink, response = some sink →
        format_response (some r) response status_code fp
          = some (FormatResult.resource (some r),
              some (setHeader sink "Content-Type" fp.format)))
      ∧ (fp.format = "application/fhir+xml" →
        format_response (some r) response status_code fp
          = some (FormatResult.response
              { content := Content.xmlOf r fp.pretty,
                status_code := pyOr status_code 200,
                media_type := fp.format,
                is_json_response := false }, response)) := by
  refine ⟨?_, ?_, ?_, ?_⟩
  · intro hf hp
    simp [format_response, hf, hp, status.HTTP_200_OK]
  · intro hf hp n hn hne
    subst hn
    simp [format_response, hf, hp, pyTruthy, hne]
  · intro hf hp ht sink hs
    subst hs
    simp [format_response, hf, hp, ht]
  · intro hf
    simp [format_response, hf, status.HTTP_200_OK]

/-- Claim C5 witness. -/
theorem C5_present_resource_case_table_witness :
    format_response (some ⟨"p"⟩) (some ⟨[]⟩) (some 404)
        { format := "application/fhir+json", pretty := false }
      = some (FormatResult.response
          { content := Content.dictOf ⟨"p"⟩,
            status_code := 404,
            media_type := "application/fhir+json",
            is_json_response := true }, some ⟨[]⟩) :=
  (C5_present_resource_case_table ⟨"p"⟩ (some ⟨[]⟩) (some 404)
    { format := "application/fhir+json", pretty := false }).2.1
    rfl rfl 404 rfl (by decide)

/-- Claim C5 counterexample: an explicit status code of 0 with minified JSON
is treated as absent by the `if status_code:` truthiness test, so the code
stamps the sink and returns the raw resource instead of building the
standalone response the claim requires for an explicit status. -/
theorem C5_zero_status_counterexample :
    format_response (some ⟨"p0"⟩) (some ⟨[]⟩) (some 0)
        { format := "application/fhir+json", pretty := false }
        = some (FormatResult.resource (some ⟨"p0"⟩),
            some ⟨[("Content-Type", "application/fhir+json")]⟩)
      ∧ format_response (some ⟨"p0"⟩) (some ⟨[]⟩) (some 0)
          { format := "application/fhir+json", pretty := false }
        ≠ some (FormatResult.response
            { content := Content.dictOf ⟨"p0"⟩,
              status_code := 0,
              media_type := "application/fhir+json",
              is_json_response := true }, some ⟨[]⟩) :=
  ⟨rfl, by decide⟩

/-- Claim C8 (amended): if a sink is supplied whenever the resource is
absent and whenever the format is minified JSON with a status that is absent
or zero, the assertions in `format_response` never fire; in the
absent-resource case nothing is returned for serialization and the sink's
Content-Type is set to the negotiated format. -/
theorem C8_assertions_never_fire (resource : Option ResourceModel)
    (response : Option ResponseSink) (status_code : Option Nat)
    (fp : FormatParameters)
    (h1 : resource = none → response.isSome)
    (h2 : fp.format = "application/fhir+json" → fp.pretty = false →
      pyTruthy status_code = false → response.isSome) :
    (format_response resource response status_code fp).isSome
      ∧ (∀ sink, resource = none → response = some sink →
        format_response resource response status_code fp
          = some (FormatResult.resource none,
              some (setHeader sink "Content-Type" fp.format))) := by
  constructor
  · cases resource with
    | none =>
      obtain ⟨sink, hs⟩ := Option.isSome_iff_exists.mp (h1 rfl)
      subst hs
      simp [format_response]
    | some r =>
      by_cases hf : fp.format = "application/fhir+json"
      · by_cases hp : fp.pretty = true
        · simp [format_response, hf, hp]
        · by_cases ht : pyTruthy status_code = true
          · simp [format_response, hf, hp, ht]
          · obtain ⟨sink, hs⟩ := Option.isSome_iff_exists.mp
              (h2 hf (by simpa using hp) (by simpa using ht))
            subst hs
            simp [format_response, hf, hp, ht]
      · simp [format_response, hf]
  · intro sink hr hs
    subst hr
    subst hs
    simp [format_response]

/-- Claim C8 witness. -/
theorem C8_assertions_never_fire_witness :
    (format_response none (some ⟨[]⟩) none
        { format := "application/fhir+json", pretty := false }).isSome
      ∧ format_response none (some ⟨[]⟩) none
          { format := "application/fhir+json", pretty := false }
        = some (FormatResult.resource none,
            some ⟨[("Content-Type", "application/fhir+json")]⟩) :=
  ⟨(C8_assertions_never_fire none (some ⟨[]⟩) none
      { format := "application/fhir+json", pretty := false }
      (fun _ => rfl) (fun _ _ _ => rfl)).1,
   (C8_assertions_never_fire none (some ⟨[]⟩) none
      { format := "application/fhir+json", pretty := false }
      (fun _ => rfl) (fun _ _ _ => rfl)).2 ⟨[]⟩ rfl rfl⟩

/-- Claim C8 counterexample: with the resource present and the explicit
status 0, the claim's precondition demands no sink (a status is given), yet
the truthiness test routes execution into the assertion branch and the
assertion fires. -/
theorem C8_zero_status_assertion_fires :
    some (0 : Nat) ≠ (none : Option Nat)
      ∧ format_response (some ⟨"p8"⟩) none (some 0)
          { format := "application/fhir+json", pretty := false } = none :=
  ⟨by decide, rfl⟩

/-- Replacing a key's binding and appending it does not disturb the lookup
of any other key. -/
theorem lookup_filter_bne_append {β : Type} (t : List (String × β))
    (key k : String) (v : β) (hk : k ≠ key) :
    List.lookup k (t.filter (fun p => p.1 != key) ++ [(key, v)])
      = List.lookup k t := by
  induction t with
  | nil => simp [List.lookup, beq_eq_false_iff_ne.mpr hk]
  | cons p t ih =>
    obtain ⟨pk, pv⟩ := p
    cases hpa : (pk != key) with
    | false =>
      have hp : pk = key := by simpa using hpa
      have hkp : (k == pk) = false := by
        rw [beq_eq_false_iff_ne, hp]
        exact hk
      simp [List.filter_cons, hpa, List.lookup_cons, hkp, ih]
    | true =>
      simp [List.filter_cons, hpa, List.lookup_cons, ih]

/-- After replacing a key's binding, looking that key up yields the new
value. -/
theorem lookup_filter_bne_append_self {β : Type} (t : List (String × β))
    (key : String) (v : β) :
    List.lookup key (t.filter (fun p => p.1 != key) ++ [(key, v)])
      = some v := by
  induction t with
  | nil => simp [List.lookup]
  | cons p t ih =>
    obtain ⟨pk, pv⟩ := p
    cases hpa : (pk != key) with
    | false => simpa [List.filter_cons, hpa] using ih
    | true =>
      have hne : pk ≠ key := by simpa using hpa
      have hkp : (key == pk) = false := by
        rw [beq_eq_false_iff_ne]
        exact fun h => hne h.symm
      simpa [List.filter_cons, hpa, List.lookup_cons, hkp] using ih

/-- Setting one header leaves every other header's value unchanged. -/
theorem headerGet_setHeader_ne (sink : ResponseSink) (key value k : String)
    (hk : k ≠ key) :
    headerGet (setHeader sink key value) k = headerGet sink k := by
  obtain ⟨l⟩ := sink
  simpa [headerGet, setHeader] using lookup_filter_bne_append l key k value hk

/-- The stamped header carries the stamped value. -/
theorem headerGet_setHeader_self (sink : ResponseSink) (key value : String) :
    headerGet (setHeader sink key value) key = some value := by
  obtain ⟨l⟩ := sink
  simpa [headerGet, setHeader] using lookup_filter_bne_append_self l key value

/-- Claim C10 (amended): the standalone branches (pretty JSON, minified JSON
with an explicit nonzero status, XML) hand the caller-supplied sink back
untouched; only the absent-resource branch and the minified-JSON branch with
status absent or zero write the sink, and they change only its Content-Type
header. -/
theorem C10_sink_frame (r : ResourceModel) (response : Option ResponseSink)
    (status_code : Option Nat) (fp : FormatParameters) :
    (fp.format = "application/fhir+json" → fp.pretty = true →
      (format_response (some r) response status_code fp).map Prod.snd
        = some response)
      ∧ (fp.format = "application/fhir+json" → fp.pretty = false →
        pyTruthy status_code = true →
        (format_response (some r) response status_code fp).map Prod.snd
          = some response)
      ∧ (fp.format = "application/fhir+xml" →
        (format_response (some r) response status_code fp).map Prod.snd
          = some response)
      ∧ (∀ sink, fp.format = "application/fhir+json" → fp.pretty = false →
        pyTruthy status_code = false → response = some sink →
        (format_response (some r) response status_code fp).map Prod.snd
          = some (some (setHeader sink "Content-Type" fp.format)))
      ∧ (∀ sink, response = some sink →
        (format_response none response status_code fp).map Prod.snd
          = some (some (setHeader sink "Content-Type" fp.format)))
      ∧ (∀ sink k, k ≠ "Content-Type" →
        headerGet (setHeader sink "Content-Type" fp.format) k = headerGet sink k)
      ∧ (∀ sink, headerGet (setHeader sink "Content-Type" fp.format) "Content-Type"
          = some fp.format) := by
  refine ⟨?_, ?_, ?_, ?_, ?_, ?_, ?_⟩
  · intro hf hp
    simp [format_response, hf, hp]
  · intro hf hp ht
    simp [format_response, hf, hp, ht]
  · intro hf
    simp [format_response, hf]
  · intro sink hf hp ht hs
    subst hs
    simp [format_response, hf, hp, ht]
  · intro sink hs
    subst hs
    simp [format_response]
  · intro sink k hk
    exact headerGet_setHeader_ne sink "Content-Type" fp.format k hk
  · intro sink
    exact headerGet_setHeader_self sink "Content-Type" fp.format

/-- Claim C10 witness. -/
theorem C10_sink_frame_witness :
    (format_response (some ⟨"pw"⟩) (some ⟨[("X-A", "1")]⟩) none
        { format := "application/fhir+json", pretty := true }).map Prod.snd
      = some (some ⟨[("X-A", "1")]⟩) :=
  (C10_sink_frame ⟨"pw"⟩ (some ⟨[("X-A", "1")]⟩) none
    { format := "application/fhir+json", pretty := true }).1 rfl rfl

/-- Claim C10 counterexample: minified JSON with the explicit status 0 is a
standalone-response case by the claim's reading, yet the code takes the
default branch and writes the sink's Content-Type header. -/
theorem C10_zero_status_writes_sink :
    (format_response (some ⟨"pA"⟩) (some ⟨[("X-A", "1")]⟩) (some 0)
        { format := "application/fhir+json", pretty := false }).map Prod.snd
        = some (some ⟨[("X-A", "1"), ("Content-Type", "application/fhir+json")]⟩)
      ∧ some (some (⟨[("X-A", "1"), ("Content-Type", "application/fhir+json")]⟩ : ResponseSink))
        ≠ some (some (⟨[("X-A", "1")]⟩ : ResponseSink)) :=
  ⟨rfl, by decide⟩

end Fhirstarter
